import Mathlib

/-!
Verification development for the RAG-Framework repository.

The subsystems formalised here are the secure-download token codec
(src/util/__init__.py, class SecureDownloadGenerator) and the agent
configuration export pipeline (src/data/function/agent.py and
src/route/agent.py), together with the download redemption endpoint
(src/main.py).

Modelling conventions:
- a Python str is a list of Unicode code points (`Str := List Char`);
- `DEFAULT_TOKEN_SEPARATOR = "::"` from src/util/constant.py is `sep`;
- Python `str.split(sep)` and `sep.join(parts)` are `splitSep` and
  `joinSep`, implemented with the same left-to-right non-overlapping
  scan the CPython implementation uses;
- `hmac.new(secret_key, payload, sha256).hexdigest()` is an arbitrary
  parameter `mac : Str → Str`; the secret key is fixed by currying.
  Nothing proved here depends on more than determinism of the digest
  (plus, where stated as a hypothesis, that a hex digest contains no
  colon character);
- `base64.urlsafe_b64encode` and the corresponding decode step are an
  injective codec with a partial inverse; a token is therefore either
  `Token.decoded s` (decoding yields the text `s`) or
  `Token.undecodable` (the decode raises and the except-branch fires);
- wall-clock instants (`time.time()`) are integers; the sub-second
  fractional part plays no role in any claim considered here.
-/

namespace RAG

/-- A Python string, as its list of code points. -/
abbrev Str := List Char

/-- DEFAULT_TOKEN_SEPARATOR = "::" (src/util/constant.py). -/
def sep : Str := [':', ':']

/-- Python `s.split("::")`: left-to-right scan, splitting at each
non-overlapping occurrence of the two-colon separator.  On the empty
string Python returns `[""]`. -/
def splitSep : Str → List Str
  | [] => [[]]
  | [c] => [[c]]
  | a :: b :: rest =>
    if a = ':' ∧ b = ':' then
      [] :: splitSep rest
    else
      match splitSep (b :: rest) with
      | [] => [[a]]
      | s :: ss => (a :: s) :: ss

/-- Python `"::".join(parts)`. -/
def joinSep : List Str → Str
  | [] => []
  | [s] => s
  | s :: ss => s ++ sep ++ joinSep ss

/-- The two-colon separator does not occur (as a contiguous substring)
in the string. -/
def noSep : Str → Bool
  | [] => true
  | [_] => true
  | a :: b :: rest => if a = ':' ∧ b = ':' then false else noSep (b :: rest)

/-- The string is nonempty and its final character is a colon. -/
def endsColon : Str → Bool
  | [] => false
  | [c] => c = ':'
  | _ :: rest => endsColon rest

/-- A field value that survives the join-then-split round trip in any
position: it contains no two-colon separator and does not end with a
colon (a trailing colon would merge with the following separator and
shift the split point). -/
def goodField (f : Str) : Bool := noSep f && !endsColon f

/-- The string contains no colon at all (true of the URL-safe nonce
alphabet and of hexadecimal digests). -/
def noColon (f : Str) : Bool := f.all (fun c => c ≠ ':')

theorem splitSep_ne_nil : ∀ s : Str, splitSep s ≠ [] := by
  intro s
  match s with
  | [] => simp [splitSep]
  | [c] => simp [splitSep]
  | a :: b :: rest =>
    rw [splitSep]
    split
    · simp
    · split <;> simp

theorem noColon_cons {a : Char} {rest : Str} (h : noColon (a :: rest) = true) :
    a ≠ ':' ∧ noColon rest = true := by
  simpa [noColon] using h

theorem noColon_noSep {f : Str} (h : noColon f = true) : noSep f = true := by
  induction f with
  | nil => rfl
  | cons a rest ih =>
    obtain ⟨ha, hrest⟩ := noColon_cons h
    cases rest with
    | nil => rfl
    | cons b rest2 =>
      rw [noSep, if_neg (fun hc => ha hc.1)]
      exact ih hrest

theorem noColon_not_endsColon {f : Str} (h : noColon f = true) : endsColon f = false := by
  induction f with
  | nil => rfl
  | cons a rest ih =>
    obtain ⟨ha, hrest⟩ := noColon_cons h
    cases rest with
    | nil => simp [endsColon, ha]
    | cons b rest2 =>
      rw [show endsColon (a :: b :: rest2) = endsColon (b :: rest2) from rfl]
      exact ih hrest

theorem noColon_goodField {f : Str} (h : noColon f = true) : goodField f = true := by
  simp [goodField, noColon_noSep h, noColon_not_endsColon h]

theorem noSep_cons_cons {a b : Char} {rest : Str} (h : noSep (a :: b :: rest) = true) :
    ¬(a = ':' ∧ b = ':') ∧ noSep (b :: rest) = true := by
  rw [noSep] at h
  by_cases hab : a = ':' ∧ b = ':'
  · rw [if_pos hab] at h
    exact absurd h (by simp)
  · rw [if_neg hab] at h
    exact ⟨hab, h⟩

/-- A separator-free string splits into the single field it is. -/
theorem splitSep_of_noSep : ∀ {f : Str}, noSep f = true → splitSep f = [f] := by
  intro f
  induction f with
  | nil => intro _; rfl
  | cons a rest ih =>
    intro h
    cases rest with
    | nil => rfl
    | cons b rest2 =>
      obtain ⟨hab, h2⟩ := noSep_cons_cons h
      rw [splitSep, if_neg hab, ih h2]

/-- Peeling one well-behaved field off the front of a joined string:
the left-to-right scan of Python split finds the inserted separator
first, provided the field itself has no separator and no trailing
colon. -/
theorem splitSep_field_sep (f t : Str) (hf : goodField f = true) :
    splitSep (f ++ sep ++ t) = f :: splitSep t := by
  induction f with
  | nil =>
    show splitSep (':' :: ':' :: t) = [] :: splitSep t
    rw [splitSep, if_pos ⟨rfl, rfl⟩]
  | cons a rest ih =>
    simp only [goodField, Bool.and_eq_true, Bool.not_eq_true'] at hf
    obtain ⟨hsep, hend⟩ := hf
    cases rest with
    | nil =>
      by_cases ha : a = ':'
      · simp [endsColon, ha] at hend
      · show splitSep (a :: ':' :: ':' :: t) = [a] :: splitSep t
        rw [splitSep, if_neg (fun hc => ha hc.1)]
        rw [show splitSep (':' :: ':' :: t) = [] :: splitSep t from by
          rw [splitSep, if_pos ⟨rfl, rfl⟩]]
    | cons d rest2 =>
      obtain ⟨had, hsep2⟩ := noSep_cons_cons hsep
      have hend2 : endsColon (d :: rest2) = false := hend
      have hgood2 : goodField (d :: rest2) = true := by
        simp [goodField, hsep2, hend2]
      show splitSep (a :: d :: (rest2 ++ sep ++ t)) = (a :: d :: rest2) :: splitSep t
      rw [splitSep, if_neg had]
      have ihr : splitSep (d :: (rest2 ++ sep ++ t)) = (d :: rest2) :: splitSep t := by
        have := ih hgood2
        simpa using this
      rw [ihr]

/-- Joining fields with "::" and splitting again returns the original
fields, provided every field is separator-free and every field except
possibly the last does not end with a colon. -/
theorem splitSep_joinSep (fs : List Str) (hne : fs ≠ [])
    (hall : ∀ f ∈ fs, noSep f = true)
    (hgood : ∀ f ∈ fs.dropLast, goodField f = true) :
    splitSep (joinSep fs) = fs := by
  induction fs with
  | nil => exact absurd rfl hne
  | cons f fs ih =>
    cases fs with
    | nil => exact splitSep_of_noSep (hall f (by simp))
    | cons g gs =>
      rw [show joinSep (f :: g :: gs) = f ++ sep ++ joinSep (g :: gs) from rfl]
      rw [splitSep_field_sep f (joinSep (g :: gs)) (hgood f (by simp))]
      rw [ih (by simp) (fun x hx => hall x (by simp [hx]))
          (fun x hx => hgood x (by simpa using Or.inr (by simpa using hx)))]

/-- Numeric value of a decimal digit character. -/
def digitVal (c : Char) : Nat := c.toNat - 48

/-- All characters are decimal digits (and hence the string is a plain
unsigned decimal numeral once it is also nonempty). -/
def isDigits (s : Str) : Bool := s.all Char.isDigit

/-- Value of a digit string, most significant digit first. -/
def digitsVal (s : Str) : Nat := s.foldl (fun acc c => 10 * acc + digitVal c) 0

/-- Digit-accumulating core of the decimal rendering.  The fuel
argument only bounds the recursion depth; any fuel at least the value
being rendered gives the exact decimal digits. -/
def natToStrGo : Nat → Nat → Str → Str
  | 0, n, acc => Char.ofNat (48 + n % 10) :: acc
  | fuel + 1, n, acc =>
    if n < 10 then Char.ofNat (48 + n) :: acc
    else natToStrGo fuel (n / 10) (Char.ofNat (48 + n % 10) :: acc)

/-- Python `str(n)` for a nonnegative int: decimal, no sign, no
padding. -/
def natToStr (n : Nat) : Str := natToStrGo n n []

/-- Python `int(s)` restricted to ASCII sign-and-digits inputs: an
optional single leading + or - sign followed by a nonempty run of
decimal digits parses; everything else raises ValueError (`none`).
(CPython additionally strips whitespace and allows underscore digit
grouping; no string this development ever evaluates uses those, and no
string produced by the token generator ever contains them.) -/
def pyInt? (s : Str) : Option Int :=
  match s with
  | [] => Option.none
  | c :: rest =>
    if c = '-' then
      if rest ≠ [] ∧ isDigits rest then some (-(digitsVal rest : Int)) else Option.none
    else if c = '+' then
      if rest ≠ [] ∧ isDigits rest then some ((digitsVal rest : Int)) else Option.none
    else if isDigits (c :: rest) then some ((digitsVal (c :: rest) : Int)) else Option.none

theorem digitChar_isDigit {d : Nat} (h : d < 10) : (Char.ofNat (48 + d)).isDigit = true := by
  interval_cases d <;> decide

theorem digitChar_val {d : Nat} (h : d < 10) : digitVal (Char.ofNat (48 + d)) = d := by
  interval_cases d <;> decide

theorem digitChar_ne_colon {d : Nat} (h : d < 10) : (Char.ofNat (48 + d)) ≠ ':' := by
  interval_cases d <;> decide

theorem natToStrGo_mem {fuel n : Nat} {acc : Str} {c : Char}
    (hc : c ∈ natToStrGo fuel n acc) :
    c ∈ acc ∨ ∃ d, d < 10 ∧ c = Char.ofNat (48 + d) := by
  induction fuel generalizing n acc with
  | zero =>
    rw [natToStrGo] at hc
    rcases List.mem_cons.mp hc with h | h
    · exact Or.inr ⟨n % 10, Nat.mod_lt _ (by omega), h⟩
    · exact Or.inl h
  | succ fuel ih =>
    rw [natToStrGo] at hc
    split at hc
    · rcases List.mem_cons.mp hc with h | h
      · rename_i hn
        exact Or.inr ⟨n, hn, h⟩
      · exact Or.inl h
    · rcases ih hc with h | h
      · rcases List.mem_cons.mp h with h2 | h2
        · exact Or.inr ⟨n % 10, Nat.mod_lt _ (by omega), h2⟩
        · exact Or.inl h2
      · exact Or.inr h

theorem natToStr_ne_nil (n : Nat) : natToStr n ≠ [] := by
  show natToStrGo n n [] ≠ []
  cases n with
  | zero => simp [natToStrGo]
  | succ m =>
    rw [natToStrGo]
    split
    · simp
    · generalize m + 1 = k
      intro hcon
      have : Char.ofNat (48 + k % 10) ∈ natToStrGo m (k / 10) [Char.ofNat (48 + k % 10)] := by
        have hgen : ∀ fuel v (acc : Str) x, x ∈ acc → x ∈ natToStrGo fuel v acc := by
          intro fuel
          induction fuel with
          | zero => intro v acc x hx; rw [natToStrGo]; exact List.mem_cons_of_mem _ hx
          | succ f ihf =>
            intro v acc x hx
            rw [natToStrGo]
            split
            · exact List.mem_cons_of_mem _ hx
            · exact ihf _ _ _ (List.mem_cons_of_mem _ hx)
        exact hgen _ _ _ _ (by simp)
      rw [hcon] at this
      exact absurd this (List.not_mem_nil _)

theorem natToStr_all_digits (n : Nat) : isDigits (natToStr n) = true := by
  apply List.all_eq_true.mpr
  intro c hc
  rcases natToStrGo_mem hc with h | ⟨d, hd, rfl⟩
  · exact absurd h (List.not_mem_nil _)
  · exact digitChar_isDigit hd

theorem natToStr_noColon (n : Nat) : noColon (natToStr n) = true := by
  apply List.all_eq_true.mpr
  intro c hc
  rcases natToStrGo_mem hc with h | ⟨d, hd, rfl⟩
  · exact absurd h (List.not_mem_nil _)
  · simpa using digitChar_ne_colon hd

theorem digitsVal_append_digit (s : Str) (c : Char) :
    digitsVal (s ++ [c]) = 10 * digitsVal s + digitVal c := by
  simp [digitsVal, List.foldl_append]

theorem natToStrGo_shift (fuel n : Nat) (acc : Str) :
    natToStrGo fuel n acc = natToStrGo fuel n [] ++ acc := by
  induction fuel generalizing n acc with
  | zero => rw [natToStrGo, natToStrGo]; rfl
  | succ f ih =>
    rw [natToStrGo, natToStrGo]
    split
    · rfl
    · rw [ih (n / 10) (Char.ofNat (48 + n % 10) :: acc),
        ih (n / 10) [Char.ofNat (48 + n % 10)]]
      simp

theorem digitsVal_natToStrGo (fuel n : Nat) (hfuel : n ≤ fuel) :
    digitsVal (natToStrGo fuel n []) = n := by
  induction fuel generalizing n with
  | zero =>
    have : n = 0 := by omega
    subst this
    decide
  | succ f ih =>
    rw [natToStrGo]
    split
    · rename_i hn
      simp [digitsVal, digitChar_val hn]
    · rename_i hn
      rw [natToStrGo_shift, digitsVal_append_digit,
        ih (n / 10) (by omega),
        digitChar_val (Nat.mod_lt _ (show 0 < 10 by omega))]
      omega

theorem digitsVal_natToStr (n : Nat) : digitsVal (natToStr n) = n :=
  digitsVal_natToStrGo n n (Nat.le_refl n)

/-- The decimal rendering of a nonnegative int parses back to itself. -/
theorem pyInt_natToStr (n : Nat) : pyInt? (natToStr n) = some (n : Int) := by
  have hdig := natToStr_all_digits n
  have hval := digitsVal_natToStr n
  rcases hcons : natToStr n with _ | ⟨c, rest⟩
  · exact absurd hcons (natToStr_ne_nil n)
  · have hc : c.isDigit = true := by
      have hd2 := hdig
      rw [hcons] at hd2
      simp only [isDigits, List.all_cons, Bool.and_eq_true] at hd2
      exact hd2.1
    have hcm : c ≠ '-' := by
      intro hcon
      rw [hcon] at hc
      exact absurd hc (by decide)
    have hcp : c ≠ '+' := by
      intro hcon
      rw [hcon] at hc
      exact absurd hc (by decide)
    rw [pyInt?, if_neg hcm, if_neg hcp, if_pos (by rw [← hcons]; exact hdig)]
    rw [← hcons, hval]

/-- FileInformation (src/util/__init__.py): name, mime type and path of
a concrete file on local storage.  The path is carried as its string
rendering (generate_token applies str to it). -/
structure FileInformation where
  name : Str
  mime_type : Str
  path : Str
deriving DecidableEq, Repr

/-- A candidate download token, viewed through the base64url codec:
either it decodes to some text, or the decode step raises (covering
both malformed base64 and undecodable UTF-8), which generate_token
never produces and verify_token maps to InvalidArgumentError. -/
inductive Token
  | decoded (s : Str)
  | undecodable
deriving DecidableEq, Repr

/-- Partial inverse of the base64url encoding. -/
def b64decode : Token → Option Str
  | Token.decoded s => some s
  | Token.undecodable => Option.none

/-- SecureDownloadGenerator.generate_token (src/util/__init__.py lines
30-53).  The ambient effects are explicit parameters: `now` is
int(time.time()), `nonce` is secrets.token_urlsafe(16), and `mac` is
the HMAC-SHA256 hex digest under the fixed secret key.  The payload
fields are joined with "::" with no validation or escaping, the digest
of the joined payload is appended as a final field, and the result is
base64url-encoded.  A provided user_id is appended only when truthy
(Python `if user_id:`), so None and the empty string are both
omitted. -/
def generate_token (mac : Str → Str) (now : Nat) (nonce : Str)
    (data : FileInformation) (expires_in : Nat) (user_id : Option Str) : Token :=
  let expiry := now + expires_in
  let base := [data.name, data.path, data.mime_type, natToStr expiry, nonce]
  let payload_parts :=
    match user_id with
    | some u => if u ≠ [] then base ++ [u] else base
    | Option.none => base
  let payload := joinSep payload_parts
  let signature := mac payload
  Token.decoded (payload ++ sep ++ signature)

/-- Possible outcomes of SecureDownloadGenerator.verify_token: a
returned FileInformation, a returned None, or one of the exceptions
the body can raise. -/
inductive VerifyResult
  | ok (info : FileInformation)
  | returnedNone
  | invalidArgumentError
  | valueError
  | indexError
deriving DecidableEq, Repr

/-- SecureDownloadGenerator.verify_token (src/util/__init__.py lines
55-98), step for step: base64-decode (raising InvalidArgumentError on
failure), split on "::", return None when fewer than 5 parts, parse
parts[3] as the expiry (int() raises ValueError on a non-numeral),
return None when expired, then read the signature from parts[6] (when
exactly 7 parts, with parts[5] the user id) or parts[5] (otherwise —
an IndexError when there are exactly 5 parts), recompute the digest of
the rejoined leading fields and compare; mismatch returns None,
success rebuilds the FileInformation from the split fields. -/
def verify_token (mac : Str → Str) (now : Int) (token : Token) : VerifyResult :=
  match b64decode token with
  | Option.none => VerifyResult.invalidArgumentError
  | some token_data =>
    let parts := splitSep token_data
    if parts.length < 5 then VerifyResult.returnedNone
    else
      let name := parts.getD 0 []
      let path := parts.getD 1 []
      let mime_type := parts.getD 2 []
      let expiry_str := parts.getD 3 []
      let nonce := parts.getD 4 []
      match pyInt? expiry_str with
      | Option.none => VerifyResult.valueError
      | some expiry =>
        if now > expiry then VerifyResult.returnedNone
        else
          if parts.length = 7 then
            let user_id := parts.getD 5 []
            let signature := parts.getD 6 []
            let payload := joinSep [name, path, mime_type, expiry_str, nonce, user_id]
            if signature = mac payload then VerifyResult.ok ⟨name, mime_type, path⟩
            else VerifyResult.returnedNone
          else
            match parts.get? 5 with
            | Option.none => VerifyResult.indexError
            | some signature =>
              let payload := joinSep [name, path, mime_type, expiry_str, nonce]
              if signature = mac payload then VerifyResult.ok ⟨name, mime_type, path⟩
              else VerifyResult.returnedNone

/-- A concrete digest function used by the closed evaluations: the
decimal length of the payload.  Like an HMAC-SHA256 hex digest it is a
deterministic function of the payload containing no colon. -/
def macLen (s : Str) : Str := natToStr s.length

/-- Outcome classes of the GET /download endpoint. -/
inductive HttpOutcome
  | fileResponse (info : FileInformation)
  | badRequest
  | internalError
deriving DecidableEq, Repr

/-- The GET /download endpoint (src/main.py lines 102-109) composed
with the exception handlers registered in the same file.  A returned
FileInformation is streamed.  A raised InvalidArgumentError is mapped
to HTTP 400 by invalid_argument_exception_handler.  When verify_token
returns None the endpoint evaluates file["path"] on None, raising
TypeError; neither it nor ValueError nor IndexError has a registered
handler, so those surface as internal server errors, not as 400. -/
def download (mac : Str → Str) (now : Int) (token : Token) : HttpOutcome :=
  match verify_token mac now token with
  | VerifyResult.ok info => HttpOutcome.fileResponse info
  | VerifyResult.returnedNone => HttpOutcome.internalError
  | VerifyResult.invalidArgumentError => HttpOutcome.badRequest
  | VerifyResult.valueError => HttpOutcome.internalError
  | VerifyResult.indexError => HttpOutcome.internalError

example :
    verify_token macLen 100
      (generate_token macLen 100 ['N'] ⟨['a'], ['m'], ['p']⟩ 3600 Option.none)
      = VerifyResult.ok ⟨['a'], ['m'], ['p']⟩ := by decide

example :
    verify_token macLen 100
      (generate_token macLen 100 ['N'] ⟨['x', ':'], ['m'], ['y']⟩ 3600 Option.none)
      = VerifyResult.ok ⟨['x'], ['m'], [':', 'y']⟩ := by decide

theorem joinSep_cons (f : Str) (L : List Str) (h : L ≠ []) :
    joinSep (f :: L) = f ++ sep ++ joinSep L := by
  cases L with
  | nil => exact absurd rfl h
  | cons g gs => rfl

theorem joinSep_append_last (fs : List Str) (x : Str) (h : fs ≠ []) :
    joinSep (fs ++ [x]) = joinSep fs ++ sep ++ x := by
  induction fs with
  | nil => exact absurd rfl h
  | cons f rest ih =>
    cases rest with
    | nil => rfl
    | cons g gs =>
      rw [show (f :: g :: gs) ++ [x] = f :: ((g :: gs) ++ [x]) from rfl]
      rw [joinSep_cons f ((g :: gs) ++ [x]) (by simp)]
      rw [ih (by simp)]
      rw [joinSep_cons f (g :: gs) (by simp)]
      simp [List.append_assoc]

/-- Evaluation of verify_token on a decoded token that splits into
exactly six fields with a matching signature and an unexpired parseable
expiry. -/
theorem verify_token_decoded_six (mac : Str → Str) (now v : Int)
    (nm pt mt e nc sg : Str)
    (hsplit : splitSep (joinSep [nm, pt, mt, e, nc] ++ sep ++ sg) = [nm, pt, mt, e, nc, sg])
    (hparse : pyInt? e = some v)
    (hnow : ¬ now > v)
    (hsig : sg = mac (joinSep [nm, pt, mt, e, nc])) :
    verify_token mac now (Token.decoded (joinSep [nm, pt, mt, e, nc] ++ sep ++ sg))
      = VerifyResult.ok ⟨nm, mt, pt⟩ := by
  simp only [verify_token, b64decode, hsplit]
  rw [show (nm :: pt :: mt :: e :: nc :: sg :: ([] : List Str)).length = 6 from rfl]
  rw [if_neg (by decide)]
  rw [show (nm :: pt :: mt :: e :: nc :: sg :: ([] : List Str)).getD 3 [] = e from rfl]
  rw [hparse]
  dsimp only
  rw [if_neg hnow]
  rw [if_neg (by decide : ¬ (6 : Nat) = 7)]
  rw [show (nm :: pt :: mt :: e :: nc :: sg :: ([] : List Str)).get? 5 = some sg from rfl]
  rw [show (nm :: pt :: mt :: e :: nc :: sg :: ([] : List Str)).getD 0 [] = nm from rfl,
    show (nm :: pt :: mt :: e :: nc :: sg :: ([] : List Str)).getD 1 [] = pt from rfl,
    show (nm :: pt :: mt :: e :: nc :: sg :: ([] : List Str)).getD 2 [] = mt from rfl,
    show (nm :: pt :: mt :: e :: nc :: sg :: ([] : List Str)).getD 4 [] = nc from rfl]
  dsimp only
  rw [if_pos hsig]

theorem goodField_noSep {f : Str} (h : goodField f = true) : noSep f = true := by
  simp only [goodField, Bool.and_eq_true] at h
  exact h.1

/-- C1 (amended): for every FileInformation whose name, path and mime
type contain no "::" and do not end with a colon, with a colon-free
nonce and a colon-free digest (both true of the real URL-safe nonce
and hexadecimal HMAC), verifying a generated token (no user id) at or
before its embedded expiry returns a FileInformation equal to the
original in name, path and mime type. -/
theorem C1_token_roundtrip (mac : Str → Str) (now0 ttl : Nat) (now : Int)
    (nonce : Str) (info : FileInformation)
    (hname : goodField info.name = true)
    (hpath : goodField info.path = true)
    (hmime : goodField info.mime_type = true)
    (hnonce : noColon nonce = true)
    (hsig : noColon (mac (joinSep [info.name, info.path, info.mime_type,
      natToStr (now0 + ttl), nonce])) = true)
    (hnow : now ≤ ((now0 + ttl : Nat) : Int)) :
    verify_token mac now (generate_token mac now0 nonce info ttl Option.none)
      = VerifyResult.ok info := by
  obtain ⟨nm, mt, pt⟩ := info
  simp only at hname hpath hmime hsig
  rw [show generate_token mac now0 nonce ⟨nm, mt, pt⟩ ttl Option.none
      = Token.decoded (joinSep [nm, pt, mt, natToStr (now0 + ttl), nonce] ++ sep ++
          mac (joinSep [nm, pt, mt, natToStr (now0 + ttl), nonce])) from rfl]
  apply verify_token_decoded_six mac now ((now0 + ttl : Nat) : Int)
  · rw [← joinSep_append_last _ _ (by simp)]
    rw [show [nm, pt, mt, natToStr (now0 + ttl), nonce] ++
        [mac (joinSep [nm, pt, mt, natToStr (now0 + ttl), nonce])]
      = [nm, pt, mt, natToStr (now0 + ttl), nonce,
          mac (joinSep [nm, pt, mt, natToStr (now0 + ttl), nonce])] from rfl]
    apply splitSep_joinSep _ (by simp)
    · intro f hf
      simp only [List.mem_cons, List.not_mem_nil, or_false] at hf
      rcases hf with rfl | rfl | rfl | rfl | rfl | rfl
      · exact goodField_noSep hname
      · exact goodField_noSep hpath
      · exact goodField_noSep hmime
      · exact noColon_noSep (natToStr_noColon _)
      · exact noColon_noSep hnonce
      · exact noColon_noSep hsig
    · intro f hf
      simp only [List.dropLast, List.mem_cons, List.not_mem_nil, or_false] at hf
      rcases hf with rfl | rfl | rfl | rfl | rfl
      · exact hname
      · exact hpath
      · exact hmime
      · exact noColon_goodField (natToStr_noColon _)
      · exact noColon_goodField hnonce
  · exact pyInt_natToStr _
  · omega
  · rfl

/-- Witness for C1: a concrete round trip through the codec. -/
theorem C1_token_roundtrip_witness :
    (goodField ['a'] = true ∧ goodField ['p'] = true ∧ goodField ['m'] = true ∧
      noColon ['N'] = true ∧
      noColon (macLen (joinSep [['a'], ['p'], ['m'], natToStr (100 + 3600), ['N']])) = true ∧
      (200 : Int) ≤ ((100 + 3600 : Nat) : Int)) ∧
    verify_token macLen 200
        (generate_token macLen 100 ['N'] ⟨['a'], ['m'], ['p']⟩ 3600 Option.none)
      = VerifyResult.ok ⟨['a'], ['m'], ['p']⟩ :=
  ⟨by decide, C1_token_roundtrip macLen 100 3600 200 ['N'] ⟨['a'], ['m'], ['p']⟩
    (by decide) (by decide) (by decide) (by decide) (by decide) (by decide)⟩

/-- C1 as frozen is false.  The name "x:" and the path "y" contain no
occurrence of the separator "::", yet the trailing colon of the name
merges with the inserted separator: the token is verified successfully
before its expiry — the signature matches because rejoining the split
fields reproduces the original payload — but the returned
FileInformation has name "x" and path ":y", not the original
fields. -/
theorem C1_roundtrip_counterexample :
    (noSep ['x', ':'] = true ∧ noSep ['y'] = true ∧ noSep ['m'] = true ∧
      (100 : Int) < ((100 + 3600 : Nat) : Int)) ∧
    verify_token macLen 100
        (generate_token macLen 100 ['N'] ⟨['x', ':'], ['m'], ['y']⟩ 3600 Option.none)
      = VerifyResult.ok ⟨['x'], ['m'], [':', 'y']⟩ ∧
    VerifyResult.ok (FileInformation.mk ['x'] ['m'] [':', 'y'])
      ≠ VerifyResult.ok ⟨['x', ':'], ['m'], ['y']⟩ := by decide

/-- C2 (amended): verify_token raises InvalidArgumentError exactly when
the base64 decode step fails, and the download endpoint answers 400
exactly in that same case; a wrong field count, an expired token or a
signature mismatch make verify_token return None instead, which the
endpoint turns into an unhandled internal error, so token-validation
failures are not surfaced uniformly. -/
theorem C2_invalid_token_iff_bad_base64 (mac : Str → Str) (now : Int) (token : Token) :
    (verify_token mac now token = VerifyResult.invalidArgumentError
      ↔ b64decode token = Option.none)
    ∧ (download mac now token = HttpOutcome.badRequest
      ↔ b64decode token = Option.none) := by
  cases token with
  | undecodable =>
    constructor
    · simp [verify_token, b64decode]
    · simp [download, verify_token, b64decode]
  | decoded s =>
    have hv : verify_token mac now (Token.decoded s) ≠ VerifyResult.invalidArgumentError := by
      simp only [verify_token, b64decode]
      repeat' split
      all_goals simp
    have hd : download mac now (Token.decoded s) ≠ HttpOutcome.badRequest := by
      rw [download]
      cases hres : verify_token mac now (Token.decoded s) with
      | ok info => simp
      | returnedNone => simp
      | invalidArgumentError => exact absurd hres hv
      | valueError => simp
      | indexError => simp
    constructor
    · constructor
      · intro h
        exact absurd h hv
      · intro h
        simp [b64decode] at h
    · constructor
      · intro h
        exact absurd h hd
      · intro h
        simp [b64decode] at h

/-- C2 as frozen is false: an expired, well-formed, correctly signed
token does not fail with InvalidArgumentError — verify_token returns
None, and the download endpoint surfaces that as an unhandled internal
error rather than a 400. -/
theorem C2_uniform_error_counterexample :
    verify_token macLen 100
        (generate_token macLen 0 ['N'] ⟨['a'], ['m'], ['p']⟩ 10 Option.none)
      = VerifyResult.returnedNone ∧
    VerifyResult.returnedNone ≠ VerifyResult.invalidArgumentError ∧
    download macLen 100
        (generate_token macLen 0 ['N'] ⟨['a'], ['m'], ['p']⟩ 10 Option.none)
      = HttpOutcome.internalError ∧
    HttpOutcome.internalError ≠ HttpOutcome.badRequest := by decide

/-- C5: generate_token performs no rejection and no escaping.  A name
containing the separator "::" is joined verbatim into the payload of
the issued token, and the resulting token text splits into seven fields
instead of six — the separator occurs unescaped inside the name
field. -/
theorem C5_no_reject_or_escape :
    noSep ['a', ':', ':', 'b'] = false ∧
    generate_token macLen 0 ['N'] ⟨['a', ':', ':', 'b'], ['m'], ['p']⟩ 3600 Option.none
      = Token.decoded
          (joinSep [['a', ':', ':', 'b'], ['p'], ['m'], natToStr 3600, ['N']] ++ sep ++
            macLen (joinSep [['a', ':', ':', 'b'], ['p'], ['m'], natToStr 3600, ['N']])) ∧
    (splitSep
        (joinSep [['a', ':', ':', 'b'], ['p'], ['m'], natToStr 3600, ['N']] ++ sep ++
          macLen (joinSep [['a', ':', ':', 'b'], ['p'], ['m'], natToStr 3600, ['N']]))).length
      = 7 := by decide

/-- C5 (amended): generate_token accepts every FileInformation without
rejection and embeds name, path and mime type verbatim with no
escaping: the issued token always decodes, and its text is the plain
concatenation of the raw field values with the separator, the expiry,
the nonce and the digest — so a "::" occurring inside a field value
stands unescaped inside the payload of the issued token. -/
theorem C5_fields_embedded_verbatim (mac : Str → Str) (now ttl : Nat)
    (nonce : Str) (data : FileInformation) :
    generate_token mac now nonce data ttl Option.none ≠ Token.undecodable ∧
    b64decode (generate_token mac now nonce data ttl Option.none)
      = some (data.name ++ sep ++ data.path ++ sep ++ data.mime_type ++ sep
          ++ natToStr (now + ttl) ++ sep ++ nonce ++ sep
          ++ mac (data.name ++ sep ++ data.path ++ sep ++ data.mime_type ++ sep
              ++ natToStr (now + ttl) ++ sep ++ nonce)) := by
  constructor
  · simp [generate_token]
  · simp [generate_token, b64decode, joinSep, List.append_assoc]

/-- C9: verify_token is not total on well-formed base64 input.  A
decoded payload with exactly five fields and an unexpired numeric
expiry reaches parts[5] and raises IndexError, and a payload whose
fourth field is not a decimal numeral raises ValueError from int() —
neither returns None nor raises InvalidArgumentError. -/
theorem C9_verify_token_not_total :
    (splitSep (joinSep [['a'], ['b'], ['c'], ['9', '9', '9', '9'], ['n']])).length = 5 ∧
    verify_token macLen 100
        (Token.decoded (joinSep [['a'], ['b'], ['c'], ['9', '9', '9', '9'], ['n']]))
      = VerifyResult.indexError ∧
    pyInt? ['x', 'y', 'z'] = Option.none ∧
    verify_token macLen 100
        (Token.decoded (joinSep [['a'], ['b'], ['c'], ['x', 'y', 'z'], ['n'], ['s']]))
      = VerifyResult.valueError := by decide

/-- C10: separator injection parses silently.  For a FileInformation
whose mime type is "m::99999" (no user id), generate_token succeeds and
verify_token accepts the token — the rejoined payload equals the
original, so the recomputed signature matches — but the extra separator
shifts the fields: the nonce position is taken for the user id, the
embedded "99999" is read as the (future) expiry, and the returned
FileInformation has mime type "m", unequal to the original input. -/
theorem C10_separator_injection_accepted :
    noSep ['m', ':', ':', '9', '9', '9', '9', '9'] = false ∧
    verify_token macLen 2000
        (generate_token macLen 1000 ['N']
          ⟨['n'], ['m', ':', ':', '9', '9', '9', '9', '9'], ['p']⟩ 3600 Option.none)
      = VerifyResult.ok ⟨['n'], ['m'], ['p']⟩ ∧
    (FileInformation.mk ['n'] ['m'] ['p'])
      ≠ ⟨['n'], ['m', ':', ':', '9', '9', '9', '9', '9'], ['p']⟩ := by decide

/-- Resolved embeddings configuration, reduced to the one observable
the export pipeline reads from it: the result of get_api_key_env()
(None when the provider declares no credential variable). -/
structure EmbeddingsCfg where
  api_key_env : Option Str
deriving DecidableEq, Repr

/-- Resolved chat model configuration, likewise reduced to its
get_api_key_env() observable. -/
structure LLMCfg where
  api_key_env : Option Str
deriving DecidableEq, Repr

/-- Resolved retriever configuration (config/model/retriever): either a
vector-store or a BM25 retriever, each carrying its embeddings model —
the two isinstance branches of _write_env_file. -/
inductive RetrieverCfg
  | vectorStore (embeddings_model : EmbeddingsCfg)
  | bm25 (embeddings_model : EmbeddingsCfg)
deriving DecidableEq, Repr

/-- Resolved tool configuration, reduced to its get_api_key_env()
observable. -/
structure ToolCfg where
  api_key_env : Option Str
deriving DecidableEq, Repr

/-- Resolved prompt configuration (opaque payload). -/
structure PromptCfg where
  respond_prompt : Str
deriving DecidableEq, Repr

/-- Resolved image recognizer configuration (opaque payload). -/
structure RecognizerCfg where
  payload : Str
deriving DecidableEq, Repr

/-- A stored MCP server: get_model_by_id yields its metadata (the
name), get_configuration_by_id its connection configuration (kept
opaque). -/
structure MCPServer where
  name : Str
  connection : Str
deriving DecidableEq, Repr

/-- MCPConfiguration(connections=servers): the name-keyed dictionary of
connection configurations. -/
structure MCPConfiguration where
  connections : List (Str × Str)
deriving DecidableEq, Repr

/-- The persisted agent document: the fields of BaseAgent
(src/data/base_model/__init__.py) plus the document id.  retriever_ids
is a required list there (min_length 1 is not needed by any proof);
tool_ids and mcp_server_ids are optional. -/
structure Agent where
  id : Str
  name : Str
  description : Option Str
  language : Str
  image_recognizer_id : Str
  retriever_ids : List Str
  tool_ids : Option (List Str)
  mcp_server_ids : Option (List Str)
  llm_id : Str
  prompt_id : Str
deriving DecidableEq, Repr

/-- Modelled from the spec: the class AgentConfiguration of
src/config/model/agent.py is imported throughout the sources but the
module itself is absent from src.  The staged sources constrain it from
three sides at once.  (1) src/data/model/__init__.py declares
`class Agent(AgentConfiguration)` adding only the document id, yet
AgentServiceImpl reads the reference fields name, description,
language, image_recognizer_id, retriever_ids, tool_ids,
mcp_server_ids, llm_id and prompt_id off Agent values — so the class
carries the reference fields of spec section 3 AgentReference.
(2) create_new (src/data/function/agent.py lines 233-236) and the
route example bodies validate reference-shaped AgentCreate dumps —
documents with no resolved fields — into Agent, so every resolved
field has a None default.  (3) _get_agent_config line 350 validates a
dictionary holding only agent_name, description, language and the
resolved task results into the same class, so every reference field
has a None default too.  The only reading under which the staged
callers are all executable is therefore the superset with every field
optional: the reference group and the resolved group of spec section 3
(agent_name, description, language, image_recognizer, retrievers,
tools, mcp, llm, prompt — the dictionary keys of line 350).  The
composite declares a `retrievers` list; no reading gives it an
attribute named `retriever`. -/
structure AgentConfiguration where
  name : Option Str
  agent_name : Option Str
  description : Option Str
  language : Option Str
  image_recognizer_id : Option Str
  retriever_ids : Option (List Str)
  tool_ids : Option (List Str)
  mcp_server_ids : Option (List Str)
  llm_id : Option Str
  prompt_id : Option Str
  image_recognizer : Option RecognizerCfg
  retrievers : Option (List RetrieverCfg)
  tools : Option (List ToolCfg)
  mcp : Option MCPConfiguration
  llm : Option LLMCfg
  prompt : Option PromptCfg
deriving DecidableEq, Repr

/-- Agent.model_validate on a stored reference-shaped agent document
(src/data/function/agent.py line 251 and src/route/agent.py line 78).
The Agent values of this development are exactly the validated
reference-shaped documents — the shape create_new stores (lines
233-236) — and under the superset composite the resolved fields take
their None defaults while the reference fields revalidate unchanged,
so the step succeeds and is the identity.  It is kept explicit so the
validation the source performs is visible on every export path. -/
def agent_model_validate (doc : Agent) : Except AppError Agent :=
  Except.ok doc

/-- AgentConfiguration.model_validate(agent) at src/route/agent.py line
108: revalidates a reference-shaped Agent instance into the composite.
Under the superset composite this succeeds, copying the reference
fields and leaving every resolved field at its None default (which is
what the route then serializes into config.json). -/
def composite_model_validate (a : Agent) : Except AppError AgentConfiguration :=
  Except.ok
    { name := some a.name
      agent_name := Option.none
      description := a.description
      language := some a.language
      image_recognizer_id := some a.image_recognizer_id
      retriever_ids := some a.retriever_ids
      tool_ids := a.tool_ids
      mcp_server_ids := a.mcp_server_ids
      llm_id := some a.llm_id
      prompt_id := some a.prompt_id
      image_recognizer := Option.none
      retrievers := Option.none
      tools := Option.none
      mcp := Option.none
      llm := Option.none
      prompt := Option.none }

/-- A child failure inside the ExceptionGroup of a failed
asyncio.TaskGroup: either a NotFoundError raised by a direct lookup
task, or the ExceptionGroup of a nested TaskGroup (the per-retriever
and per-MCP-server groups), which carries the reasons of its own
NotFoundError children. -/
inductive ChildFailure
  | notFound (reason : Str)
  | innerGroup (reasons : List Str)
deriving DecidableEq, Repr

/-- Error values crossing the boundaries modelled here.  notFound and
invalidArgument are the exception classes of src/util/error.py (the
module is referenced throughout src but absent from it; each class
carries a reason string).  exceptionGroup is the ExceptionGroup raised
by a failed asyncio.TaskGroup.  attributeError is the Python
AttributeError.  entitiesNotFound is modelled from the spec (section
7): the aggregated EntitiesNotFoundError carrying the list of missing
references — no code under src constructs such a value. -/
inductive AppError
  | notFound (reason : Str)
  | invalidArgument (reason : Str)
  | attributeError
  | exceptionGroup (children : List ChildFailure)
  | entitiesNotFound (missing : List Str)
deriving DecidableEq, Repr

/-- The entity stores behind the per-kind services.  Each store maps an
id to the persisted entity when one exists; get_model_by_id raises
NotFoundError exactly when the lookup misses, and
get_configuration_by_id resolves through the same store (both read the
same MongoDB collection). -/
structure Services where
  recognizer : Str → Option RecognizerCfg
  chat_model : Str → Option LLMCfg
  prompt : Str → Option PromptCfg
  retriever : Str → Option RetrieverCfg
  mcp : Str → Option MCPServer

def recognizerNotFoundMsg (i : Str) : Str :=
  "No recognizer with id ".toList ++ i ++ " found.".toList

def chatModelNotFoundMsg (i : Str) : Str :=
  "No chat model with id ".toList ++ i ++ " found.".toList

def promptNotFoundMsg (i : Str) : Str :=
  "No prompt configuration with id ".toList ++ i ++ " found.".toList

def retrieverNotFoundMsg (i : Str) : Str :=
  "No retriever with id ".toList ++ i ++ " found.".toList

def mcpNotFoundMsg (i : Str) : Str :=
  "No MCP configuration with id ".toList ++ i ++ " found.".toList

def agentNotFoundMsg (i : Str) : Str :=
  "No agent configuration with id ".toList ++ i ++ " found.".toList

def routeAgentNotFoundMsg (i : Str) : Str :=
  "Agent with id ".toList ++ i ++ " not found.".toList

/-- The fixed reason of the NotFoundError raised by
AgentServiceImpl._check_entities_exists. -/
def checkFailMsg : Str := "Some entities are not exists.".toList

/-- The ids fetched by AgentServiceImpl._check_entities_exists, in task
creation order, whose lookup fails.  The recognizer, chat model and
prompt ids are checked unconditionally; retriever_ids is a required
list (the is-not-None guard in the source is always true for a
validated Agent); mcp_server_ids is checked when not None. -/
def check_missing (sv : Services) (a : Agent) : List Str :=
  (if (sv.recognizer a.image_recognizer_id).isNone then [a.image_recognizer_id] else [])
  ++ (if (sv.chat_model a.llm_id).isNone then [a.llm_id] else [])
  ++ (if (sv.prompt a.prompt_id).isNone then [a.prompt_id] else [])
  ++ a.retriever_ids.filter (fun i => (sv.retriever i).isNone)
  ++ (match a.mcp_server_ids with
      | some ids => ids.filter (fun i => (sv.mcp i).isNone)
      | Option.none => [])

/-- AgentServiceImpl._check_entities_exists (src/data/function/agent.py
lines 276-290): one lookup task per referenced entity inside an
asyncio.TaskGroup; when any task raises, the TaskGroup raises an
ExceptionGroup, which the except branch logs at debug level and
replaces wholesale with a single NotFoundError carrying the fixed
reason "Some entities are not exists." — the identity of the missing
references is discarded. -/
def check_entities_exists (sv : Services) (a : Agent) : Except AppError Unit :=
  if check_missing sv a = [] then Except.ok ()
  else Except.error (AppError.notFound checkFailMsg)

/-- Existence flags for the file-system locations one export touches.
rootDir is CACHE_DIR/agent-id, configDir its config subdirectory,
recognizerDir and retrieverDir the two artifact subdirectories,
envFile the .env stub, configJson config/config.json, archive the
CACHE_DIR/agent-id.zip file. -/
structure FS where
  cacheDir : Bool
  rootDir : Bool
  configDir : Bool
  recognizerDir : Bool
  retrieverDir : Bool
  envFile : Bool
  configJson : Bool
  archive : Bool
deriving DecidableEq, Repr

def emptyFS : FS :=
  ⟨false, false, false, false, false, false, false, false⟩

/-- The directory levels of IAgentService.get_export_path. -/
inductive ExportLevel
  | root
  | config
  | recognizer
  | retriever
deriving DecidableEq, Repr

/-- AgentServiceImpl.get_export_path (src/data/function/agent.py lines
191-213) as its effect on the file system: the cache directory is
created unconditionally, and the requested level directory is created
with its parents. -/
def get_export_path (level : ExportLevel) (fs : FS) : FS :=
  match level with
  | ExportLevel.root => { fs with cacheDir := true, rootDir := true }
  | ExportLevel.config => { fs with cacheDir := true, rootDir := true, configDir := true }
  | ExportLevel.recognizer =>
    { fs with cacheDir := true, rootDir := true, configDir := true, recognizerDir := true }
  | ExportLevel.retriever =>
    { fs with cacheDir := true, rootDir := true, configDir := true, retrieverDir := true }

/-- Sequential collection of per-task results: the loop
[task.result() for task in tasks], which reads tasks in creation
order.  A None result (possible only when the completion schedule
failed to run a task) aborts the collection. -/
def collectResults {α : Type} (g : Nat → Option α) : List Nat → Option (List α)
  | [] => some []
  | j :: js =>
    match g j, collectResults g js with
    | some v, some vs => some (v :: vs)
    | _, _ => Option.none

/-- The nested get_retrievers coroutine of _get_agent_config
(src/data/function/agent.py lines 315-323).  Tasks are created in the
order of the id list and appended to a task list; sigma is the order in
which the scheduler completes them (as positions into that task list),
recorded as completion-indexed results.  If any fetch misses, the inner
TaskGroup raises the group of their NotFoundErrors; otherwise the
results are read back with task.result() in task-list order, which is
where the ordering guarantee comes from. -/
def get_retrievers (f : Str → Option RetrieverCfg) (ids : List Str) (σ : List Nat) :
    Except (List Str) (List RetrieverCfg) :=
  let failed := ids.filter (fun i => (f i).isNone)
  if failed ≠ [] then Except.error failed
  else
    let completions := σ.map (fun k => (k, (ids.get? k).bind f))
    match collectResults (fun j => (completions.lookup j).bind id) (List.range ids.length) with
    | some cfgs => Except.ok cfgs
    | Option.none => Except.error []

/-- The ids of an MCP id list whose store lookup fails (each server
needs its metadata and its connection configuration: both read the
same store here, so one miss stands for both tasks). -/
def mcp_missing (sv : Services) (ids : List Str) : List Str :=
  ids.filter (fun i => (sv.mcp i).isNone)

/-- Dictionary insertion with Python semantics: assignment to an
existing key overwrites it (last write wins), a fresh key is appended
in iteration order. -/
def dictInsert (m : List (Str × Str)) (k : Str) (v : Str) : List (Str × Str) :=
  if m.any (fun p => p.1 = k) then m.map (fun p => if p.1 = k then (k, v) else p)
  else m ++ [(k, v)]

/-- The servers dictionary built by the nested get_mcp_configuration
coroutine (lines 329-341): servers[metadata.name] = config, iterating
the task pairs in creation order. -/
def mcpConnections (sv : Services) (ids : List Str) : List (Str × Str) :=
  ids.foldl
    (fun m i =>
      match sv.mcp i with
      | some s => dictInsert m s.name s.connection
      | Option.none => m)
    []

/-- The child failures the outer TaskGroup of _get_agent_config
collects, in task creation order, under the schedule in which every
spawned task runs to completion.  (asyncio cancels the siblings of the
first failed task where it can, making the group a nonempty sublist of
this; every theorem below either uses a single-failure instance, where
the two agree, or only the emptiness of this list.)  The recognizer
task exists only when image_recognizer_id is truthy, the retriever and
MCP tasks only for a truthy (non-None, nonempty) id list; the nested
groups surface as single children of the outer group. -/
def config_failures (sv : Services) (a : Agent) : List ChildFailure :=
  (if a.image_recognizer_id ≠ [] ∧ (sv.recognizer a.image_recognizer_id).isNone
   then [ChildFailure.notFound (recognizerNotFoundMsg a.image_recognizer_id)] else [])
  ++ (if a.retriever_ids ≠ [] ∧ a.retriever_ids.filter (fun i => (sv.retriever i).isNone) ≠ []
      then [ChildFailure.innerGroup
        ((a.retriever_ids.filter (fun i => (sv.retriever i).isNone)).map retrieverNotFoundMsg)]
      else [])
  ++ (match a.mcp_server_ids with
      | some ids =>
        if ids ≠ [] ∧ mcp_missing sv ids ≠ []
        then [ChildFailure.innerGroup ((mcp_missing sv ids).map mcpNotFoundMsg)] else []
      | Option.none => [])
  ++ (if (sv.chat_model a.llm_id).isNone
      then [ChildFailure.notFound (chatModelNotFoundMsg a.llm_id)] else [])
  ++ (if (sv.prompt a.prompt_id).isNone
      then [ChildFailure.notFound (promptNotFoundMsg a.prompt_id)] else [])

/-- AgentServiceImpl._get_agent_config (src/data/function/agent.py
lines 292-350).  The recognizer and retriever export directories are
created on the parent task before the fetches run (get_export_path is
called synchronously inside the TaskGroup body / at coroutine start),
so they exist whether or not a fetch later fails.  If any child task
fails the TaskGroup raises the ExceptionGroup of the collected
failures and no configuration is returned; otherwise the task_dict
results are assembled and validated into the composite (the tools task
is commented out in the source, so tools is never set). -/
def get_agent_config (sv : Services) (a : Agent) (σ : List Nat) (fs : FS) :
    Except AppError AgentConfiguration × FS :=
  let fs1 := if a.image_recognizer_id ≠ [] then get_export_path ExportLevel.recognizer fs else fs
  let fs2 := if a.retriever_ids ≠ [] then get_export_path ExportLevel.retriever fs1 else fs1
  if config_failures sv a ≠ [] then
    (Except.error (AppError.exceptionGroup (config_failures sv a)), fs2)
  else
    match sv.chat_model a.llm_id, sv.prompt a.prompt_id with
    | some llm, some prompt =>
      (Except.ok
        { name := Option.none
          agent_name := some a.name
          description := a.description
          language := some a.language
          image_recognizer_id := Option.none
          retriever_ids := Option.none
          tool_ids := Option.none
          mcp_server_ids := Option.none
          llm_id := Option.none
          prompt_id := Option.none
          image_recognizer :=
            if a.image_recognizer_id ≠ [] then sv.recognizer a.image_recognizer_id
            else Option.none
          retrievers :=
            if a.retriever_ids ≠ [] then
              match get_retrievers sv.retriever a.retriever_ids σ with
              | Except.ok cfgs => some cfgs
              | Except.error _ => Option.none
            else Option.none
          tools := Option.none
          mcp :=
            match a.mcp_server_ids with
            | some ids => if ids ≠ [] then some ⟨mcpConnections sv ids⟩ else Option.none
            | Option.none => Option.none
          llm := some llm
          prompt := some prompt }, fs2)
    | _, _ =>
      -- unreachable: an empty failure list forces both lookups to hit
      (Except.error (AppError.exceptionGroup (config_failures sv a)), fs2)

/-- The AgentEnvVar enum values (src/util/constant.py), iterated first
when the env set is populated. -/
def agentEnvVars : List Str :=
  ["POSTGRES_HOST".toList, "POSTGRES_PORT".toList, "POSTGRES_DATABASE".toList,
    "POSTGRES_USER".toList, "POSTGRES_PASSWORD".toList]

/-- _write_env_file (src/data/function/agent.py lines 153-170).  The
function populates env_set with the AgentEnvVar values and the chat
model api-key variable (line 159; the composites reaching this call
come from the line-350 assembly, where llm is set), then evaluates the
guard `if agent.retriever is not None:` on line 160.  The composite
configuration declares no attribute named `retriever` under any
reading of the staged sources (its fields are `retriever_ids` and
`retrievers`, the latter being the attribute the loop body iterates),
so the attribute lookup raises AttributeError before anything is
written to disk. -/
def write_env_file (agent : AgentConfiguration) : Except AppError Str :=
  let _env_set := agentEnvVars ++ [(agent.llm.bind (fun l => l.api_key_env)).getD []]
  Except.error AppError.attributeError

/-- The env-variable names _write_env_file would emit were its guard
written `agent.retrievers is not None`, evaluated on a line-350
composite (llm set): AgentEnvVar values, the chat model api-key
variable, each retriever embeddings-model api-key variable and each
tool api-key variable, deduplicated (a Python set; insertion order is
the canonical iteration order used here — the facts proved about the
result are order-invariant), with None entries filtered out before
joining. -/
def write_env_file_intended_names (agent : AgentConfiguration) : List Str :=
  let vals : List (Option Str) :=
    agentEnvVars.map some
      ++ (match agent.llm with
          | some l => [l.api_key_env]
          | Option.none => [])
      ++ (match agent.retrievers with
          | some rs =>
            rs.map (fun r =>
              match r with
              | RetrieverCfg.vectorStore em => em.api_key_env
              | RetrieverCfg.bm25 em => em.api_key_env)
          | Option.none => [])
      ++ (match agent.tools with
          | some ts => ts.map (fun t => t.api_key_env)
          | Option.none => [])
  (vals.foldl (fun acc x => if x ∈ acc then acc else acc ++ [x]) []).filterMap id

/-- Python "=\n".join(names): the joiner goes between consecutive
names, so every line but the last reads NAME= and the final name is
written with no = at all. -/
def joinEqNewline : List Str → Str
  | [] => []
  | [s] => s
  | s :: ss => s ++ ('=' :: '\n' :: []) ++ joinEqNewline ss

/-- Splitting a text into lines at newline characters. -/
def splitNl : Str → List Str
  | [] => [[]]
  | c :: rest =>
    if c = '\n' then [] :: splitNl rest
    else
      match splitNl rest with
      | [] => [[c]]
      | s :: ss => (c :: s) :: ss

/-- The base export-cache directory (the CACHE_DIR environment
variable read by get_cache_dir_path; the helper is referenced from
src/util/function.py callers but absent from src — its value is an
opaque constant here). -/
def cacheBase : Str := "CACHE_DIR".toList

/-- The absolute resolved path of the export archive for an agent:
CACHE_DIR/agent-id.zip, the sibling of the working directory. -/
def exportArchivePath (agent_id : Str) : Str :=
  cacheBase ++ ('/' :: agent_id) ++ ".zip".toList

/-- The FileInformation built for the archive: the display name embeds
the agent id and a timestamp (the strftime text is the `stamp`
parameter), the path is the absolute archive path, the mime type is
application/zip. -/
def exportFileInformation (agent_id : Str) (stamp : Str) : FileInformation :=
  { name := agent_id ++ ('_' :: stamp) ++ ".zip".toList
    mime_type := "application/zip".toList
    path := exportArchivePath agent_id }

/-- AgentServiceImpl.get_exported_agent_config_file_token
(src/data/function/agent.py lines 249-274).  The agent lookup models
get_model_by_id on the agent collection; now, nonce, stamp and mac
parametrize the ambient clock, randomness and digest.  Steps: resolve
the agent document (NotFoundError on a miss, before any disk effect);
revalidate it with Agent.model_validate (line 251, still before any
disk effect); create the root working directory; build the
FileInformation; unlink any stale archive; aggregate the
configuration; write the .env stub; write config/config.json; zip the
working directory; delete the working directory; mint the token.
There is no try/finally anywhere: a failure in aggregation or in the
env-file write propagates with the directories created so far left in
place and the stale archive already deleted. -/
def get_exported_agent_config_file_token (sv : Services)
    (agents : Str → Option Agent) (σ : List Nat)
    (mac : Str → Str) (now : Nat) (nonce : Str) (stamp : Str)
    (agent_id : Str) (fs : FS) : Except AppError Token × FS :=
  match agents agent_id with
  | Option.none => (Except.error (AppError.notFound (agentNotFoundMsg agent_id)), fs)
  | some doc_agent =>
    match agent_model_validate doc_agent with
    | Except.error e => (Except.error e, fs)
    | Except.ok agent =>
    let fs1 := get_export_path ExportLevel.root fs
    let file_info := exportFileInformation agent.id stamp
    let fs2 := { fs1 with archive := false }
    match get_agent_config sv agent σ fs2 with
    | (Except.error e, fs3) => (Except.error e, fs3)
    | (Except.ok cfg, fs3) =>
      match write_env_file cfg with
      | Except.error e => (Except.error e, fs3)
      | Except.ok _ =>
        let fs4 := { fs3 with envFile := true }
        let fs5 := get_export_path ExportLevel.config fs4
        let fs6 := { fs5 with configJson := true }
        let fs7 := { fs6 with archive := true }
        let fs8 := { fs7 with
                     rootDir := false, configDir := false,
                     recognizerDir := false, retrieverDir := false,
                     envFile := false, configJson := false }
        (Except.ok (generate_token mac now nonce file_info 3600 Option.none), fs8)

/-- export_agent_config (src/route/agent.py lines 73-112), the function
wired to GET /api/v1/agent/agent-id/export.  It resolves the agent
document (raising NotFoundError with its own message), revalidates it
with Agent.model_validate (line 78), clears any stale working
directory and archive, recreates the directory tree, validates the
stored agent into a composite with
AgentConfiguration.model_validate(agent) (line 108) and writes only
config/config.json from it (no entity fetching, no .env file), zips
the directory and mints the token.  It never deletes the working
directory it created. -/
def route_export_agent_config (agents : Str → Option Agent)
    (mac : Str → Str) (now : Nat) (nonce : Str) (stamp : Str)
    (agent_id : Str) (fs : FS) : Except AppError Token × FS :=
  match agents agent_id with
  | Option.none => (Except.error (AppError.notFound (routeAgentNotFoundMsg agent_id)), fs)
  | some doc_agent =>
    match agent_model_validate doc_agent with
    | Except.error e => (Except.error e, fs)
    | Except.ok agent =>
    let file_info := exportFileInformation agent.id stamp
    let fs1 := { fs with cacheDir := true }
    let fs2 := { fs1 with
                 rootDir := false, configDir := false, recognizerDir := false,
                 retrieverDir := false, envFile := false, configJson := false }
    let fs3 := { fs2 with archive := false }
    let fs4 := { fs3 with rootDir := true }
    let fs5 := { fs4 with configDir := true, recognizerDir := true, retrieverDir := true }
    match composite_model_validate agent with
    | Except.error e => (Except.error e, fs5)
    | Except.ok _config_obj =>
    let fs6 := { fs5 with configJson := true }
    let fs7 := { fs6 with archive := true }
    (Except.ok (generate_token mac now nonce file_info 3600 Option.none), fs7)

theorem lookup_map_pair {α : Type} (h : Nat → α) {σ : List Nat} {j : Nat} (hj : j ∈ σ) :
    (σ.map (fun k => (k, h k))).lookup j = some (h j) := by
  induction σ with
  | nil => cases hj
  | cons k ks ih =>
    by_cases hjk : j = k
    · subst hjk
      simp [List.lookup]
    · have hbeq : (j == k) = false := by simpa using hjk
      simp only [List.map_cons, List.lookup, hbeq]
      exact ih (by
        rcases List.mem_cons.mp hj with h2 | h2
        · exact absurd h2 hjk
        · exact h2)

theorem collectResults_congr {α : Type} {g h : Nat → Option α} :
    ∀ {L : List Nat}, (∀ j ∈ L, g j = h j) → collectResults g L = collectResults h L := by
  intro L
  induction L with
  | nil => intro _; rfl
  | cons j js ih =>
    intro hgh
    rw [collectResults, collectResults, hgh j (by simp), ih (fun x hx => hgh x (by simp [hx]))]

theorem collectResults_map {α : Type} (g : Nat → Option α) (h : Nat → Nat) (L : List Nat) :
    collectResults g (L.map h) = collectResults (fun j => g (h j)) L := by
  induction L with
  | nil => rfl
  | cons j js ih => rw [List.map_cons, collectResults, collectResults, ih]

theorem collectResults_resolve {α : Type} (f : Str → Option α) (ids : List Str)
    (hall : ∀ i ∈ ids, (f i).isSome = true) :
    ∃ cfgs, collectResults (fun j => (ids.get? j).bind f) (List.range ids.length) = some cfgs
      ∧ cfgs.length = ids.length
      ∧ ∀ j, j < ids.length → cfgs.get? j = f (ids.getD j []) := by
  induction ids with
  | nil =>
    exact ⟨[], rfl, rfl, fun j hj => absurd hj (Nat.not_lt_zero j)⟩
  | cons i is ih =>
    obtain ⟨v, hv⟩ := Option.isSome_iff_exists.mp (hall i (by simp))
    obtain ⟨vs, hvs, hlen, hget⟩ := ih (fun x hx => hall x (by simp [hx]))
    refine ⟨v :: vs, ?_, by simp [hlen], ?_⟩
    · rw [show List.range (i :: is).length = 0 :: (List.range is.length).map Nat.succ from by
        rw [List.length_cons, List.range_succ_eq_map]]
      rw [collectResults]
      rw [collectResults_map]
      rw [collectResults_congr (g := fun j => ((i :: is).get? (Nat.succ j)).bind f)
        (h := fun j => (is.get? j).bind f) (fun j _ => by simp)]
      rw [hvs]
      simp [hv]
    · intro j hj
      cases j with
      | zero => simpa using hv.symm
      | succ j2 =>
        have := hget j2 (by simpa using hj)
        simpa using this

/-- When the completion schedule covers every task index and every id
resolves, get_retrievers succeeds with the results in task-creation
(input) order, independent of where each index sits in the
schedule. -/
theorem get_retrievers_ok (f : Str → Option RetrieverCfg) (ids : List Str) (σ : List Nat)
    (hcov : ∀ j, j < ids.length → j ∈ σ)
    (hall : ∀ i ∈ ids, (f i).isSome = true) :
    ∃ cfgs, get_retrievers f ids σ = Except.ok cfgs ∧ cfgs.length = ids.length ∧
      (∀ j, j < ids.length → cfgs.get? j = f (ids.getD j [])) := by
  have hfail : ids.filter (fun i => (f i).isNone) = [] := by
    apply List.filter_eq_nil_iff.mpr
    intro i hi
    simp [Option.isNone_iff_eq_none]
    exact Option.isSome_iff_exists.mp (hall i hi) |>.elim (fun v hv => by simp [hv])
  obtain ⟨cfgs, hc, hlen, hget⟩ := collectResults_resolve f ids hall
  refine ⟨cfgs, ?_, hlen, hget⟩
  rw [get_retrievers]
  simp only [hfail]
  rw [if_neg (by simp)]
  have hcong : ∀ j ∈ List.range ids.length,
      (((σ.map (fun k => (k, (ids.get? k).bind f))).lookup j).bind id)
        = (ids.get? j).bind f := by
    intro j hj
    rw [lookup_map_pair (fun k => (ids.get? k).bind f) (hcov j (List.mem_range.mp hj))]
    rfl
  rw [collectResults_congr hcong, hc]

/-- C6: for every agent with a nonempty retriever id list whose
referenced entities all resolve, the retrievers list of the assembled
composite configuration holds the resolved configurations in exactly
the input order of the id list, and the collected list is the same for
every completion schedule covering the task indices — the completion
order of the concurrent fetches does not influence it. -/
theorem C6_retriever_order (sv : Services) (a : Agent) (σ : List Nat) (fs : FS)
    (hne : a.retriever_ids ≠ [])
    (hcov : ∀ j, j < a.retriever_ids.length → j ∈ σ)
    (hnofail : config_failures sv a = []) :
    ∃ cfgs cfg,
      get_retrievers sv.retriever a.retriever_ids σ = Except.ok cfgs ∧
      get_retrievers sv.retriever a.retriever_ids σ
        = get_retrievers sv.retriever a.retriever_ids (List.range a.retriever_ids.length) ∧
      cfgs.length = a.retriever_ids.length ∧
      (∀ j, j < a.retriever_ids.length →
        cfgs.get? j = sv.retriever (a.retriever_ids.getD j [])) ∧
      (get_agent_config sv a σ fs).1 = Except.ok cfg ∧
      cfg.retrievers = some cfgs := by
  have hpieces := hnofail
  simp only [config_failures, List.append_eq_nil] at hpieces
  obtain ⟨⟨⟨⟨hA, hB⟩, hC⟩, hD⟩, hE⟩ := hpieces
  have hfilter : a.retriever_ids.filter (fun i => (sv.retriever i).isNone) = [] := by
    by_contra hcon
    rw [if_pos ⟨hne, hcon⟩] at hB
    cases hB
  have hall : ∀ i ∈ a.retriever_ids, (sv.retriever i).isSome = true := by
    intro i hi
    have h2 := List.filter_eq_nil_iff.mp hfilter i hi
    rcases h3 : sv.retriever i with _ | v
    · rw [h3] at h2
      simp at h2
    · rfl
  rcases hllm : sv.chat_model a.llm_id with _ | llm
  · rw [hllm] at hD
    simp at hD
  rcases hprompt : sv.prompt a.prompt_id with _ | prompt
  · rw [hprompt] at hE
    simp at hE
  obtain ⟨cfgs, hσok, hlen, hget⟩ :=
    get_retrievers_ok sv.retriever a.retriever_ids σ hcov hall
  obtain ⟨cfgs2, hrok, hlen2, hget2⟩ :=
    get_retrievers_ok sv.retriever a.retriever_ids (List.range a.retriever_ids.length)
      (fun j hj => List.mem_range.mpr hj) hall
  have hceq : cfgs = cfgs2 := by
    apply List.ext_get?
    intro n
    by_cases hn : n < a.retriever_ids.length
    · rw [hget n hn, hget2 n hn]
    · rw [List.get?_eq_none.mpr (by omega), List.get?_eq_none.mpr (by omega)]
  refine ⟨cfgs, ?_, hσok, by rw [hσok, hrok, hceq], hlen, hget, ?_, ?_⟩
  · exact
      { name := Option.none
        agent_name := some a.name
        description := a.description
        language := some a.language
        image_recognizer_id := Option.none
        retriever_ids := Option.none
        tool_ids := Option.none
        mcp_server_ids := Option.none
        llm_id := Option.none
        prompt_id := Option.none
        image_recognizer :=
          if a.image_recognizer_id ≠ [] then sv.recognizer a.image_recognizer_id
          else Option.none
        retrievers :=
          if a.retriever_ids ≠ [] then
            match get_retrievers sv.retriever a.retriever_ids σ with
            | Except.ok cfgs3 => some cfgs3
            | Except.error _ => Option.none
          else Option.none
        tools := Option.none
        mcp :=
          match a.mcp_server_ids with
          | some ids => if ids ≠ [] then some ⟨mcpConnections sv ids⟩ else Option.none
          | Option.none => Option.none
        llm := some llm
        prompt := some prompt }
  · simp only [get_agent_config]
    rw [if_neg (by simp [hnofail])]
    rw [hllm, hprompt]
  · simp only
    rw [if_pos hne, hσok]

instance {ε α : Type} [DecidableEq ε] [DecidableEq α] : DecidableEq (Except ε α) := fun x y =>
  match x, y with
  | Except.ok a, Except.ok b =>
    if h : a = b then Decidable.isTrue (h ▸ rfl)
    else Decidable.isFalse (fun hc => h (Except.ok.inj hc))
  | Except.error e, Except.error f =>
    if h : e = f then Decidable.isTrue (h ▸ rfl)
    else Decidable.isFalse (fun hc => h (Except.error.inj hc))
  | Except.ok _, Except.error _ => Decidable.isFalse (fun hc => Except.noConfusion hc)
  | Except.error _, Except.ok _ => Decidable.isFalse (fun hc => Except.noConfusion hc)

/-- C3 (amended): when a referenced entity is missing, no partially
filled configuration is ever returned; the create/update pre-check
raises a single NotFoundError with the fixed reason "Some entities are
not exists." carrying no reference list, and the export-path
aggregation raises the ExceptionGroup of the per-entity failures —
neither ever produces the aggregated EntitiesNotFoundError the spec
names. -/
theorem C3_aggregation_failure (sv : Services) (a : Agent) (σ : List Nat) (fs : FS)
    (h1 : check_missing sv a ≠ [])
    (h2 : config_failures sv a ≠ []) :
    check_entities_exists sv a = Except.error (AppError.notFound checkFailMsg) ∧
    (get_agent_config sv a σ fs).1
      = Except.error (AppError.exceptionGroup (config_failures sv a)) ∧
    (∀ cfg, (get_agent_config sv a σ fs).1 ≠ Except.ok cfg) ∧
    (∀ missing, check_entities_exists sv a
      ≠ Except.error (AppError.entitiesNotFound missing)) ∧
    (∀ missing, (get_agent_config sv a σ fs).1
      ≠ Except.error (AppError.entitiesNotFound missing)) := by
  have hc : check_entities_exists sv a = Except.error (AppError.notFound checkFailMsg) := by
    rw [check_entities_exists, if_neg h1]
  have hg : (get_agent_config sv a σ fs).1
      = Except.error (AppError.exceptionGroup (config_failures sv a)) := by
    simp only [get_agent_config]
    rw [if_pos h2]
  refine ⟨hc, hg, ?_, ?_, ?_⟩
  · intro cfg
    rw [hg]
    simp
  · intro missing
    rw [hc]
    simp
  · intro missing
    rw [hg]
    simp

def svC3 : Services :=
  ⟨fun i => if i = "R".toList then some ⟨"w".toList⟩ else Option.none,
   fun i => if i = "L".toList then some ⟨some "GOOGLE_API_KEY".toList⟩ else Option.none,
   fun i => if i = "P".toList then some ⟨"t".toList⟩ else Option.none,
   fun _ => Option.none,
   fun _ => Option.none⟩

def agentC3 : Agent :=
  ⟨"A3".toList, "ag".toList, Option.none, "en".toList, "R".toList,
   ["r1".toList], Option.none, Option.none, "L".toList, "P".toList⟩

/-- Witness for C3: an agent whose single retriever reference does not
resolve. -/
theorem C3_aggregation_failure_witness :
    (check_missing svC3 agentC3 ≠ [] ∧ config_failures svC3 agentC3 ≠ []) ∧
    check_entities_exists svC3 agentC3
      = Except.error (AppError.notFound checkFailMsg) ∧
    (get_agent_config svC3 agentC3 [0] emptyFS).1
      = Except.error (AppError.exceptionGroup (config_failures svC3 agentC3)) :=
  ⟨⟨by decide, by decide⟩,
    (C3_aggregation_failure svC3 agentC3 [0] emptyFS (by decide) (by decide)).1,
    (C3_aggregation_failure svC3 agentC3 [0] emptyFS (by decide) (by decide)).2.1⟩

/-- C3 as frozen is false: with one missing retriever the pre-check
raises a NotFoundError whose fixed reason names no missing reference —
it is not an EntitiesNotFoundError listing the missing references —
and the export-path aggregation raises an ExceptionGroup of per-entity
failures rather than a single aggregated EntitiesNotFoundError. -/
theorem C3_counterexample :
    check_entities_exists svC3 agentC3
      = Except.error (AppError.notFound checkFailMsg) ∧
    (∀ missing, AppError.notFound checkFailMsg ≠ AppError.entitiesNotFound missing) ∧
    (get_agent_config svC3 agentC3 [0] emptyFS).1
      = Except.error (AppError.exceptionGroup
          [ChildFailure.innerGroup [retrieverNotFoundMsg "r1".toList]]) ∧
    (∀ missing, AppError.exceptionGroup
        [ChildFailure.innerGroup [retrieverNotFoundMsg "r1".toList]]
      ≠ AppError.entitiesNotFound missing) := by
  refine ⟨by decide, fun missing => by simp, by decide, fun missing => by simp⟩

def svC4 : Services :=
  ⟨fun i => if i = "R".toList then some ⟨"w".toList⟩ else Option.none,
   fun i => if i = "L".toList then some ⟨some "GOOGLE_API_KEY".toList⟩ else Option.none,
   fun i => if i = "P".toList then some ⟨"t".toList⟩ else Option.none,
   fun _ => Option.none,
   fun _ => Option.none⟩

def agentC4 : Agent :=
  ⟨"A1".toList, "ag".toList, Option.none, "en".toList, "R".toList,
   ["r1".toList], Option.none, Option.none, "L".toList, "P".toList⟩

def agentsC4 : Str → Option Agent :=
  fun i => if i = "A1".toList then some agentC4 else Option.none

def exportC4 : Except AppError Token × FS :=
  get_exported_agent_config_file_token svC4 agentsC4 [0]
    macLen 0 ['N'] "ts".toList "A1".toList emptyFS

/-- C4 fails on the code: exporting an agent whose retriever reference
does not resolve surfaces the original aggregation error, but the
working directory tree created before the aggregation (root, config,
recognizer and retriever directories) remains on disk — there is no
cleanup on the failure path — and the stale archive slot stays
empty after the unconditional unlink. -/
theorem C4_failure_leaves_working_directory :
    exportC4.1 = Except.error (AppError.exceptionGroup
        [ChildFailure.innerGroup [retrieverNotFoundMsg "r1".toList]]) ∧
    exportC4.2.rootDir = true ∧
    exportC4.2.configDir = true ∧
    exportC4.2.recognizerDir = true ∧
    exportC4.2.retrieverDir = true ∧
    exportC4.2.archive = false := by decide

/-- C7 (amended): after a successful export through the route-level
export_agent_config — the function wired to the export endpoint — the
produced archive persists on local storage at the path recorded in the
issued token FileInformation, but the working export directory has NOT
been deleted: the route variant performs no rmtree after zipping. -/
theorem C7_route_export_workdir_remains (agents : Str → Option Agent)
    (mac : Str → Str) (now : Nat) (nonce stamp : Str)
    (agent_id : Str) (fs : FS) (agent : Agent)
    (hfound : agents agent_id = some agent) :
    (route_export_agent_config agents mac now nonce stamp agent_id fs).1
      = Except.ok (generate_token mac now nonce
          (exportFileInformation agent.id stamp) 3600 Option.none) ∧
    (route_export_agent_config agents mac now nonce stamp agent_id fs).2.archive = true ∧
    (route_export_agent_config agents mac now nonce stamp agent_id fs).2.rootDir = true ∧
    (exportFileInformation agent.id stamp).path = exportArchivePath agent.id := by
  unfold route_export_agent_config
  rw [hfound]
  exact ⟨rfl, rfl, rfl, rfl⟩

def agentC7 : Agent :=
  ⟨"A7".toList, "ag".toList, Option.none, "en".toList, "R".toList,
   ["r1".toList], Option.none, Option.none, "L".toList, "P".toList⟩

def agentsC7 : Str → Option Agent :=
  fun i => if i = "A7".toList then some agentC7 else Option.none

/-- Witness for C7: a concrete successful route export. -/
theorem C7_route_export_workdir_remains_witness :
    agentsC7 "A7".toList = some agentC7 ∧
    ((route_export_agent_config agentsC7 macLen 5 ['N'] "ts".toList "A7".toList emptyFS).1
      = Except.ok (generate_token macLen 5 ['N']
          (exportFileInformation agentC7.id "ts".toList) 3600 Option.none) ∧
      (route_export_agent_config agentsC7 macLen 5 ['N'] "ts".toList "A7".toList emptyFS).2.archive
        = true ∧
      (route_export_agent_config agentsC7 macLen 5 ['N'] "ts".toList "A7".toList emptyFS).2.rootDir
        = true ∧
      (exportFileInformation agentC7.id "ts".toList).path = exportArchivePath agentC7.id) :=
  ⟨by decide, C7_route_export_workdir_remains agentsC7 macLen 5 ['N'] "ts".toList
    "A7".toList emptyFS agentC7 (by decide)⟩

/-- C7 as frozen is false for the export actually wired to the
endpoint: the call succeeds and the archive persists, but the working
export directory is still present afterwards. -/
theorem C7_counterexample :
    (route_export_agent_config agentsC7 macLen 5 ['N'] "ts".toList "A7".toList emptyFS).1
      = Except.ok (generate_token macLen 5 ['N']
          (exportFileInformation "A7".toList "ts".toList) 3600 Option.none) ∧
    (route_export_agent_config agentsC7 macLen 5 ['N'] "ts".toList "A7".toList emptyFS).2.rootDir
      = true := by decide

def cfgC8 : AgentConfiguration :=
  { name := Option.none
    agent_name := some "ag".toList
    description := Option.none
    language := some "en".toList
    image_recognizer_id := Option.none
    retriever_ids := Option.none
    tool_ids := Option.none
    mcp_server_ids := Option.none
    llm_id := Option.none
    prompt_id := Option.none
    image_recognizer := Option.none
    retrievers := some [RetrieverCfg.vectorStore ⟨some "GOOGLE_API_KEY".toList⟩]
    tools := some [⟨some "TAVILY_API_KEY".toList⟩]
    mcp := Option.none
    llm := some ⟨some "GOOGLE_API_KEY".toList⟩
    prompt := some ⟨"t".toList⟩ }

/-- C8 fails on the code: _write_env_file raises AttributeError at the
guard `agent.retriever` — an attribute the composite does not declare
under any reading of the staged sources (see AgentConfiguration) — so
no .env containing the credential variables is ever written; and even
the write the function attempts, reading the `retrievers` attribute
its loop body uses, would join the deduplicated names with "=\n",
leaving the final name without the = of a blank-valued line. -/
theorem C8_env_file_not_as_claimed :
    write_env_file cfgC8 = Except.error AppError.attributeError ∧
    write_env_file_intended_names cfgC8
      = ["POSTGRES_HOST".toList, "POSTGRES_PORT".toList, "POSTGRES_DATABASE".toList,
         "POSTGRES_USER".toList, "POSTGRES_PASSWORD".toList, "GOOGLE_API_KEY".toList,
         "TAVILY_API_KEY".toList] ∧
    splitNl (joinEqNewline (write_env_file_intended_names cfgC8))
      = ["POSTGRES_HOST=".toList, "POSTGRES_PORT=".toList, "POSTGRES_DATABASE=".toList,
         "POSTGRES_USER=".toList, "POSTGRES_PASSWORD=".toList, "GOOGLE_API_KEY=".toList,
         "TAVILY_API_KEY".toList] := by decide

def svC6 : Services :=
  ⟨fun i => if i = "R".toList then some ⟨"w".toList⟩ else Option.none,
   fun i => if i = "L".toList then some ⟨some "GOOGLE_API_KEY".toList⟩ else Option.none,
   fun i => if i = "P".toList then some ⟨"t".toList⟩ else Option.none,
   fun i =>
     if i = "r1".toList then some (RetrieverCfg.vectorStore ⟨some "E1".toList⟩)
     else if i = "r2".toList then some (RetrieverCfg.bm25 ⟨some "E2".toList⟩)
     else Option.none,
   fun _ => Option.none⟩

def agentC6 : Agent :=
  ⟨"A6".toList, "ag".toList, Option.none, "en".toList, "R".toList,
   ["r1".toList, "r2".toList], Option.none, Option.none, "L".toList, "P".toList⟩

/-- Witness for C6: two retrievers collected under the reversed
completion schedule [1, 0] still come back in input order. -/
theorem C6_retriever_order_witness :
    (agentC6.retriever_ids ≠ [] ∧
      (∀ j, j < agentC6.retriever_ids.length → j ∈ [1, 0]) ∧
      config_failures svC6 agentC6 = []) ∧
    (∃ cfgs cfg,
      get_retrievers svC6.retriever agentC6.retriever_ids [1, 0] = Except.ok cfgs ∧
      get_retrievers svC6.retriever agentC6.retriever_ids [1, 0]
        = get_retrievers svC6.retriever agentC6.retriever_ids
            (List.range agentC6.retriever_ids.length) ∧
      cfgs.length = agentC6.retriever_ids.length ∧
      (∀ j, j < agentC6.retriever_ids.length →
        cfgs.get? j = svC6.retriever (agentC6.retriever_ids.getD j [])) ∧
      (get_agent_config svC6 agentC6 [1, 0] emptyFS).1 = Except.ok cfg ∧
      cfg.retrievers = some cfgs) ∧
    get_retrievers svC6.retriever agentC6.retriever_ids [1, 0]
      = Except.ok [RetrieverCfg.vectorStore ⟨some "E1".toList⟩,
          RetrieverCfg.bm25 ⟨some "E2".toList⟩] :=
  ⟨⟨by decide,
    fun j hj => by
      have h2 : j < 2 := by simpa [agentC6] using hj
      interval_cases j <;> simp,
    by decide⟩,
   C6_retriever_order svC6 agentC6 [1, 0] emptyFS (by decide)
     (fun j hj => by
       have h2 : j < 2 := by simpa [agentC6] using hj
       interval_cases j <;> simp)
     (by decide),
   by decide⟩
